import Mathlib

/-!
Shallow embedding of the hotel-app front-end core (session store, API gateway
client, auth flow, route guard, reservation list page) and verification of its
specified properties.  Each definition mirrors one function of the JavaScript
source; JS-specific behaviours (string truthiness, `x || dflt` defaulting,
conditional object spread) are modelled explicitly.
-/

namespace HotelApp

/-- JS truthiness of a possibly-absent string value (`undefined`/`null` and the
empty string are falsy, every other string is truthy). -/
def truthy : Option String → Bool
  | none => false
  | some s => !(s == "")

/-- JS `x || dflt` where `x` is a possibly-absent string. -/
def jsOr (x : Option String) (dflt : String) : String :=
  match x with
  | some s => if s == "" then dflt else s
  | none => dflt

/-- User profile built by the auth flow and stored in the session
(`{ username, role }`); `role` is kept optional because the profile read back
from storage by the route guard may lack the field. -/
structure UserProfile where
  username : String
  role : Option String
  deriving DecidableEq, Repr

/-- The durable client-side storage keys touched by the application
(`localStorage`): the access-credential key `authToken`, the serialized
user-profile key `authUser` (serialization is modelled by storing the value
itself) and the `refreshToken` key written by the auth service. -/
structure LocalStorage where
  authToken : Option String
  authUser : Option UserProfile
  refreshToken : Option String
  deriving DecidableEq, Repr

/-- Storage with no keys set. -/
def LocalStorage.empty : LocalStorage := ⟨none, none, none⟩

/-- Combined session state: durable storage plus the in-memory React state of
`AuthProvider` (`token` and `user`), which `isAuthenticated` and the route
guard read. -/
structure AppAuthState where
  ls : LocalStorage
  memToken : Option String
  memUser : Option UserProfile
  deriving DecidableEq, Repr

/-- State before any login: empty storage, empty context state. -/
def AppAuthState.initial : AppAuthState := ⟨LocalStorage.empty, none, none⟩

namespace AuthContext

/-- `AuthContext.login(newToken, newUserDetails)`: writes both storage keys and
both pieces of in-memory state (AuthContext.js lines 50-55). -/
def login (s : AppAuthState) (t : String) (u : UserProfile) : AppAuthState :=
  { ls := { s.ls with authToken := some t, authUser := some u }
    memToken := some t
    memUser := some u }

/-- `AuthContext.logout()`: removes both storage keys and resets both pieces of
in-memory state (AuthContext.js lines 57-63). -/
def logout (s : AppAuthState) : AppAuthState :=
  { ls := { s.ls with authToken := none, authUser := none }
    memToken := none
    memUser := none }

/-- `isAuthenticated()`: `!!token` on the in-memory token (AuthContext.js
lines 65-69). -/
def isAuthenticated (s : AppAuthState) : Bool :=
  truthy s.memToken

end AuthContext

namespace ApiService

/-- HTTP verbs exposed by the gateway client. -/
inductive HttpVerb where
  | get
  | post
  | patch
  | delete
  deriving DecidableEq, Repr

/-- Outcome of one backend round-trip, as axios presents it: a 2xx response
with decoded body `α`, a non-2xx response (status, error message, decoded error
body `ε`), no response received, or a request-setup failure. -/
inductive CallOutcome (α ε : Type) where
  | success (data : α)
  | httpError (status : Nat) (message : String) (data : ε)
  | networkError (message : String)
  | setupError (message : String)
  deriving DecidableEq, Repr

/-- The failure surfaced to the caller of a gateway-client call. -/
inductive ApiError (ε : Type) where
  | response (status : Nat) (message : String) (data : ε)
  | network (message : String)
  | setup (message : String)
  deriving DecidableEq, Repr

/-- Request interceptor (api.service.js lines 169-182): reads `authToken` from
durable storage and produces the `Authorization` header iff the token is
truthy. -/
def requestAuthHeader (ls : LocalStorage) : Option String :=
  match ls.authToken with
  | some t => if t == "" then none else some ("Bearer " ++ t)
  | none => none

/-- Response interceptor, error path (api.service.js lines 190-213): on a 401
response it removes the `authToken` key from durable storage; every other
outcome leaves storage untouched.  `status = none` means no response was
received. -/
def interceptResponse (ls : LocalStorage) (status : Option Nat) : LocalStorage :=
  if status = some 401 then { ls with authToken := none } else ls

/-- One gateway-client call (`apiClient.get/post/patch/delete`): the response
interceptor runs on the outcome, then the decoded body is returned or the
failure is propagated to the caller.  The in-memory auth state is never
touched. -/
def apiCall {α ε : Type} (_verb : HttpVerb) (_path : String) (s : AppAuthState)
    (o : CallOutcome α ε) : AppAuthState × Except (ApiError ε) α :=
  match o with
  | .success d => (s, .ok d)
  | .httpError st msg d =>
      ({ s with ls := interceptResponse s.ls (some st) }, .error (.response st msg d))
  | .networkError msg => ({ s with ls := interceptResponse s.ls none }, .error (.network msg))
  | .setupError msg => (s, .error (.setup msg))

end ApiService

/-- The operations that write the session store in the running application:
`AuthContext.login`, `AuthContext.logout`, and the gateway client's 401
handler. -/
inductive SessionOp where
  | login (t : String) (u : UserProfile)
  | logout
  | on401
  deriving DecidableEq, Repr

/-- Apply one session-store operation. -/
def SessionOp.apply (s : AppAuthState) : SessionOp → AppAuthState
  | .login t u => AuthContext.login s t u
  | .logout => AuthContext.logout s
  | .on401 => { s with ls := ApiService.interceptResponse s.ls (some 401) }

/-- The set/clear calls of claim C3: `AuthContext.login` and
`AuthContext.logout`, with arbitrary arguments. -/
inductive AuthCall where
  | set (t : String) (u : UserProfile)
  | clear
  deriving DecidableEq, Repr

/-- Apply one set/clear call to the session. -/
def AuthCall.apply (s : AppAuthState) : AuthCall → AppAuthState
  | .set t u => AuthContext.login s t u
  | .clear => AuthContext.logout s

/-- Whether the most recent call of a sequence (applied left to right) is a
`set` not followed by a `clear`. -/
def lastIsSet (l : List AuthCall) : Bool :=
  match l.getLast? with
  | some (.set _ _) => true
  | _ => false

/-- Whether every `set` in a sequence carries a truthy (non-empty) credential
string. -/
def allSetsTruthy : List AuthCall → Bool
  | [] => true
  | .set t _ :: r => (!(t == "")) && allSetsTruthy r
  | .clear :: r => allSetsTruthy r

namespace AuthService

/-- Claims decoded from the access token by `parseJwt` (auth.service.js
lines 54-60); both fields may be absent from the payload. -/
structure JwtPayload where
  username : Option String
  role : Option String
  deriving DecidableEq, Repr

/-- Body of a 2xx response from the token endpoint. -/
structure TokenResponse where
  access : Option String
  refresh : Option String
  deriving DecidableEq, Repr

/-- Outcome of the `POST /token/` call as seen inside `login`: a 2xx response,
a non-2xx response whose body may carry a `detail` message, or no response
received. -/
inductive LoginOutcome where
  | ok (data : TokenResponse)
  | httpError (status : Nat) (message : String) (detail : Option String)
  | networkError (message : String)
  deriving DecidableEq, Repr

/-- User object built after a successful token exchange (auth.service.js
lines 20-25): `decodedToken?.username || 'User'` and
`decodedToken?.role || 'GUEST'`. -/
def buildUser (parse : String → Option JwtPayload) (access : String) : UserProfile :=
  let decoded := parse access
  { username := jsOr (decoded.bind (·.username)) "User"
    role := some (jsOr (decoded.bind (·.role)) "GUEST") }

/-- `authService.login(credentials)` (auth.service.js lines 3-36), with the
token decoder passed in as `parse` (the source's `parseJwt`, a non-verifying
base64/JSON decode).  On a truthy `access` field it writes `authToken` (and
`refreshToken` when truthy) and returns the token with the built user; on a
2xx response without a truthy access token it fails with
`'Login failed: No access token received.'` (thrown, then re-thrown unchanged
by the catch block because that Error has no `response`); on a non-2xx
response — which first passes through the gateway client's response
interceptor — it fails with `error.response.data.detail || 'Login failed'`;
with no response received it re-throws the original error. -/
def login (parse : String → Option JwtPayload) (ls : LocalStorage) (o : LoginOutcome) :
    LocalStorage × Except String (String × UserProfile) :=
  match o with
  | .ok data =>
      match data.access with
      | some a =>
          if a == "" then (ls, .error "Login failed: No access token received.")
          else
            let ls1 := { ls with authToken := some a }
            let ls2 := if truthy data.refresh then { ls1 with refreshToken := data.refresh } else ls1
            (ls2, .ok (a, buildUser parse a))
      | none => (ls, .error "Login failed: No access token received.")
  | .httpError st _msg detail =>
      (ApiService.interceptResponse ls (some st), .error (jsOr detail "Login failed"))
  | .networkError msg => (ls, .error msg)

end AuthService

namespace ReservationService

/-- The reservation fields rendered by the pages (transient, request-scoped
copy of the backend object). -/
structure Reservation where
  id : Nat
  guest : Nat
  room : Nat
  check_in_date : String
  check_out_date : String
  status : String
  deriving DecidableEq, Repr

/-- A DRF validation payload: field-name-keyed lists of error messages. -/
abbrev FieldErrors : Type := List (String × List String)

/-- `reservationService.updateReservation(id, reservationData)`
(reservation.service.js lines 52-60): one PATCH through the gateway client;
the decoded body is returned on success and the error is re-thrown unmodified
on failure. -/
def updateReservation (s : AppAuthState) (id : Nat) (_reservationData : List (String × String))
    (o : ApiService.CallOutcome Reservation (Option FieldErrors)) :
    AppAuthState × Except (ApiService.ApiError (Option FieldErrors)) Reservation :=
  ApiService.apiCall .patch ("/bookings/reservations/" ++ toString id ++ "/") s o

end ReservationService

namespace ReservationFormPage

/-- The error-related state set by `handleSubmit`'s catch block. -/
structure SubmitErrorState where
  formErrors : ReservationService.FieldErrors
  error : String
  deriving DecidableEq, Repr

/-- The catch block of `handleSubmit` (ReservationFormPage.js lines 126-134):
when the failure carries a response whose data is a truthy object, the
field-name-keyed mapping is stored verbatim in `formErrors`; otherwise the
general error message becomes `err.message || <mode default>`. -/
def handleSubmitError (isEditMode : Bool)
    (e : ApiService.ApiError (Option ReservationService.FieldErrors)) : SubmitErrorState :=
  let dflt := if isEditMode then "Failed to update reservation." else "Failed to create reservation."
  match e with
  | .response _ _ (some m) => { formErrors := m, error := "Please correct the errors below." }
  | .response _ msg none => { formErrors := [], error := jsOr (some msg) dflt }
  | .network msg => { formErrors := [], error := jsOr (some msg) dflt }
  | .setup msg => { formErrors := [], error := jsOr (some msg) dflt }

end ReservationFormPage

/-- The three possible outcomes of the route guard. -/
inductive RouteDecision where
  | redirectLogin
  | redirectDashboard
  | renderOutlet
  deriving DecidableEq, Repr

/-- `ProtectedRoute({ allowedRoles })` (ProtectedRoute.js lines 5-24):
unauthenticated sessions are sent to `/login`; when `allowedRoles` is passed
and the user object and its `role` field are truthy and the role is not in the
allowed list, the session is sent to `/app/dashboard`; otherwise the child
route renders.  `allowedRoles = none` models the prop not being passed (a
provided list, even empty, is a truthy JS array). -/
def ProtectedRoute (allowedRoles : Option (List String)) (s : AppAuthState) : RouteDecision :=
  if AuthContext.isAuthenticated s = false then .redirectLogin
  else
    match allowedRoles, s.memUser with
    | some roles, some u =>
        match u.role with
        | some r => if r ≠ "" ∧ r ∉ roles then .redirectDashboard else .renderOutlet
        | none => .renderOutlet
    | _, _ => .renderOutlet

namespace ReservationsListPage

/-- Page-size configuration: `process.env.REACT_APP_PAGE_SIZE || 10`
(ReservationsListPage.js line 46). -/
structure ListConfig where
  pageSize : Nat
  deriving DecidableEq, Repr

/-- Query parameters sent by `fetchReservations` (ReservationsListPage.js
lines 27-34): `page` always, and each filter key only when its value is truthy
(the conditional object spreads). -/
structure FetchParams where
  page : Nat
  status : Option String
  check_in_date_gte : Option String
  check_in_date_lte : Option String
  search : Option String
  deriving DecidableEq, Repr

/-- The component state of `ReservationsListPage` plus a log of the fetches it
has issued (most recent first); `reservations` records the length of the
fetched list. -/
structure ListPageState where
  reservations : Nat
  isLoading : Bool
  error : String
  currentPage : Nat
  totalPages : Nat
  totalCount : Nat
  statusFilter : String
  checkInDateFromFilter : String
  checkInDateToFilter : String
  guestEmailFilter : String
  fetchLog : List FetchParams
  deriving DecidableEq, Repr

/-- The query parameters `fetchReservations` builds from the current page and
filter state: truthy filter values become `status`, `check_in_date__gte`,
`check_in_date__lte` and `search` parameters. -/
def buildParams (s : ListPageState) : FetchParams :=
  { page := s.currentPage
    status := if s.statusFilter == "" then none else some s.statusFilter
    check_in_date_gte := if s.checkInDateFromFilter == "" then none else some s.checkInDateFromFilter
    check_in_date_lte := if s.checkInDateToFilter == "" then none else some s.checkInDateToFilter
    search := if s.guestEmailFilter == "" then none else some s.guestEmailFilter }

/-- The synchronous prefix of `fetchReservations(page, filters)`
(ReservationsListPage.js lines 23-26): `setIsLoading(true)`, `setError('')`,
and the request goes out with the parameters built from the current state. -/
def fetchStart (s : ListPageState) : ListPageState :=
  { s with isLoading := true, error := "", fetchLog := buildParams s :: s.fetchLog }

/-- The `useState` initial values of the component (ReservationsListPage.js
lines 6-20). -/
def initialState : ListPageState :=
  { reservations := 0
    isLoading := true
    error := ""
    currentPage := 1
    totalPages := 0
    totalCount := 0
    statusFilter := ""
    checkInDateFromFilter := ""
    checkInDateToFilter := ""
    guestEmailFilter := ""
    fetchLog := [] }

/-- State right after mounting: the `useEffect` has run once and issued the
initial fetch. -/
def mount : ListPageState := fetchStart initialState

/-- The dependency list of the component's `useEffect`
(ReservationsListPage.js line 69): current page and the four filter values. -/
def depsEq (a b : ListPageState) : Prop :=
  a.currentPage = b.currentPage ∧ a.statusFilter = b.statusFilter ∧
    a.checkInDateFromFilter = b.checkInDateFromFilter ∧
    a.checkInDateToFilter = b.checkInDateToFilter ∧
    a.guestEmailFilter = b.guestEmailFilter

instance (a b : ListPageState) : Decidable (depsEq a b) := by
  unfold depsEq
  infer_instance

/-- The user interactions and backend responses the component reacts to: the
four filter inputs' `onChange` handlers, the four button handlers, and the
completion of an in-flight fetch (`fetchSuccess` carries the envelope's
`count` — absent or a number — and the length of `results`). -/
inductive ListEvent where
  | setStatusFilter (v : String)
  | setCheckInFrom (v : String)
  | setCheckInTo (v : String)
  | setGuestEmail (v : String)
  | applyFilters
  | clearFilters
  | nextPage
  | prevPage
  | fetchSuccess (count : Option Nat) (results : Nat)
  | fetchFailure
  deriving DecidableEq, Repr

/-- The pure state update performed by each input/button handler
(ReservationsListPage.js lines 71-99 and 119-139); fetch completions are
handled in `step`. -/
def handleEvent (s : ListPageState) : ListEvent → ListPageState
  | .setStatusFilter v => { s with statusFilter := v }
  | .setCheckInFrom v => { s with checkInDateFromFilter := v }
  | .setCheckInTo v => { s with checkInDateToFilter := v }
  | .setGuestEmail v => { s with guestEmailFilter := v }
  | .applyFilters => { s with currentPage := 1 }
  | .clearFilters =>
      { s with statusFilter := "", checkInDateFromFilter := "", checkInDateToFilter := "",
               guestEmailFilter := "", currentPage := 1 }
  | .nextPage =>
      if s.currentPage < s.totalPages then { s with currentPage := s.currentPage + 1 } else s
  | .prevPage =>
      if 1 < s.currentPage then { s with currentPage := s.currentPage - 1 } else s
  | .fetchSuccess _ _ => s
  | .fetchFailure => s

/-- One step of the component: a fetch completion applies the success block of
`fetchReservations` (lines 36-50: store the results and `count || 0`; set
`totalPages` to `Math.ceil(count / pageSize)` when `count` and the result list
are truthy, to 0 when `count === 0`, and leave it unchanged otherwise) or its
catch block (lines 52-57); a handler event updates the state and, exactly when
the `useEffect` dependencies changed, triggers one re-fetch. -/
def step (cfg : ListConfig) (s : ListPageState) : ListEvent → ListPageState
  | .fetchSuccess count results =>
      let s1 := { s with reservations := results, totalCount := count.getD 0 }
      let s2 :=
        match count with
        | some n =>
            if n ≠ 0 ∧ 0 < results then
              { s1 with totalPages := (n + cfg.pageSize - 1) / cfg.pageSize }
            else if n = 0 then { s1 with totalPages := 0 }
            else s1
        | none => s1
      { s2 with isLoading := false }
  | .fetchFailure =>
      { s with error := "Failed to fetch reservations. Please try again later.", isLoading := false }
  | e =>
      let s1 := handleEvent s e
      if depsEq s1 s then s1 else fetchStart s1

end ReservationsListPage

/-! Theorems about the embedded program. -/

/-- Claim C1 is false on the code at a concrete input: with a logged-in
session, a GET on the reservations list answered with HTTP 401 leaves the
serialized-user-profile key in durable storage and leaves `isAuthenticated()`
true — the session store is not empty after the response interceptor runs. -/
theorem gateway_401_leaves_profile_key_cex :
    let s := AuthContext.login AppAuthState.initial "tok" ⟨"staff", some "FRONT_DESK"⟩
    let s401 := (ApiService.apiCall (α := Unit) .get "/bookings/reservations/" s
      (.httpError 401 "Request failed with status code 401" "unauthorized")).1
    ¬ (s401.ls.authToken = none ∧ s401.ls.authUser = none ∧
       AuthContext.isAuthenticated s401 = false) := by
  decide

/-- Claim C1 (amended): on any gateway-client call (any verb, any path) whose
response has HTTP status 401, the response interceptor removes the
access-credential key from durable storage before the failure is propagated to
the caller; the serialized-user-profile key and the in-memory session state —
hence the result of `isAuthenticated()` — are left unchanged. -/
theorem gateway_401_removes_only_credential_key {α ε : Type} (v : ApiService.HttpVerb)
    (p : String) (s : AppAuthState) (msg : String) (d : ε) :
    let r := ApiService.apiCall (α := α) v p s (.httpError 401 msg d)
    r.1.ls.authToken = none ∧ r.1.ls.authUser = s.ls.authUser ∧
      r.1.memToken = s.memToken ∧ r.1.memUser = s.memUser ∧
      AuthContext.isAuthenticated r.1 = AuthContext.isAuthenticated s ∧
      r.2 = .error (.response 401 msg d) := by
  simp [ApiService.apiCall, ApiService.interceptResponse, AuthContext.isAuthenticated]

/-- Claim C2 is false on the code at a concrete input: the 401 handler is an
operation that clears the access-credential key yet leaves the
serialized-user-profile key set, so the two keys are not always set/cleared in
the same step. -/
theorem session_keys_not_cleared_together_cex :
    let s1 := SessionOp.apply AppAuthState.initial (.login "tok" ⟨"staff", some "FRONT_DESK"⟩)
    let s2 := SessionOp.apply s1 .on401
    s1.ls.authToken = some "tok" ∧ s2.ls.authToken = none ∧
      s1.ls.authUser = some ⟨"staff", some "FRONT_DESK"⟩ ∧
      s2.ls.authUser = some ⟨"staff", some "FRONT_DESK"⟩ := by
  decide

/-- Claim C2 (amended): in every state reachable from the empty session by the
session-writing operations (context login, context logout, the 401 handler), a
credential present in durable storage implies a user profile is present;
context login sets both keys in one step and context logout clears both keys
in one step, but the 401 handler clears only the access-credential key and
leaves the serialized-user-profile key as it was. -/
theorem session_store_invariant :
    (∀ ops : List SessionOp,
      (ops.foldl SessionOp.apply AppAuthState.initial).ls.authToken ≠ none →
        (ops.foldl SessionOp.apply AppAuthState.initial).ls.authUser ≠ none) ∧
    (∀ s t u, (SessionOp.apply s (.login t u)).ls.authToken = some t ∧
      (SessionOp.apply s (.login t u)).ls.authUser = some u) ∧
    (∀ s, (SessionOp.apply s .logout).ls.authToken = none ∧
      (SessionOp.apply s .logout).ls.authUser = none) ∧
    (∀ s, (SessionOp.apply s .on401).ls.authToken = none ∧
      (SessionOp.apply s .on401).ls.authUser = s.ls.authUser) := by
  refine ⟨?_, ?_, ?_, ?_⟩
  · intro ops
    have key : ∀ (l : List SessionOp) (s : AppAuthState),
        (s.ls.authToken ≠ none → s.ls.authUser ≠ none) →
        (l.foldl SessionOp.apply s).ls.authToken ≠ none →
          (l.foldl SessionOp.apply s).ls.authUser ≠ none := by
      intro l
      induction l with
      | nil => exact fun s h => h
      | cons op rest ih =>
        intro s h
        refine ih (SessionOp.apply s op) ?_
        cases op with
        | login t u => simp [SessionOp.apply, AuthContext.login]
        | logout => simp [SessionOp.apply, AuthContext.logout]
        | on401 =>
          simp [SessionOp.apply, ApiService.interceptResponse]
    exact key ops AppAuthState.initial (by simp [AppAuthState.initial, LocalStorage.empty])
  · intro s t u
    exact ⟨rfl, rfl⟩
  · intro s
    exact ⟨rfl, rfl⟩
  · intro s
    exact ⟨rfl, rfl⟩

/-- Witness for the reachability conjunct of the amended claim C2 at a
concrete operation sequence. -/
theorem session_store_invariant_witness :
    (([SessionOp.login "tok" ⟨"staff", some "FRONT_DESK"⟩]).foldl SessionOp.apply
      AppAuthState.initial).ls.authUser ≠ none :=
  session_store_invariant.1 [SessionOp.login "tok" ⟨"staff", some "FRONT_DESK"⟩] (by decide)

/-- Claim C3 is false on the code at a concrete input: the sequence consisting
of a single `set` with the empty-string credential ends in a state where
`isAuthenticated()` is false (`!!''` is false in JS) although the most recent
call was a `set` not followed by a `clear`. -/
theorem isAuthenticated_empty_token_cex :
    AuthContext.isAuthenticated
      (([AuthCall.set "" ⟨"staff", some "FRONT_DESK"⟩]).foldl AuthCall.apply
        AppAuthState.initial) = false ∧
    lastIsSet [AuthCall.set "" ⟨"staff", some "FRONT_DESK"⟩] = true := by
  decide

/-- Claim C3 (amended): for every finite sequence of `set` (login) / `clear`
(logout) calls starting from the empty store, provided every `set` carries a
non-empty credential string (arbitrary otherwise, and with arbitrary profile
arguments), `isAuthenticated()` afterwards is true iff the most recent call
was a `set` not followed by a `clear`. -/
theorem isAuthenticated_tracks_last_call (l : List AuthCall)
    (h : allSetsTruthy l = true) :
    AuthContext.isAuthenticated (l.foldl AuthCall.apply AppAuthState.initial) = lastIsSet l := by
  have key : ∀ (l : List AuthCall) (s : AppAuthState), allSetsTruthy l = true → l ≠ [] →
      AuthContext.isAuthenticated (l.foldl AuthCall.apply s) = lastIsSet l := by
    intro l
    induction l with
    | nil => intro s _ hne; exact absurd rfl hne
    | cons a rest ih =>
      intro s hall _
      match rest, a with
      | [], .set t u =>
        simp [allSetsTruthy] at hall
        simp [List.foldl, AuthCall.apply, AuthContext.login, AuthContext.isAuthenticated,
          truthy, lastIsSet, hall]
      | [], .clear =>
        simp [List.foldl, AuthCall.apply, AuthContext.logout, AuthContext.isAuthenticated,
          truthy, lastIsSet]
      | b :: rest2, a =>
        have htail : allSetsTruthy (b :: rest2) = true := by
          cases a <;> simp [allSetsTruthy] at hall ⊢ <;> tauto
        have := ih (AuthCall.apply s a) htail (by simp)
        simpa [List.foldl, lastIsSet, List.getLast?_cons_cons] using this
  match l with
  | [] => simp [List.foldl, AuthContext.isAuthenticated, AppAuthState.initial, truthy, lastIsSet]
  | a :: rest => exact key (a :: rest) AppAuthState.initial h (by simp)

/-- Witness for the amended claim C3 at a concrete call sequence. -/
theorem isAuthenticated_tracks_last_call_witness :
    AuthContext.isAuthenticated
      (([AuthCall.set "tok" ⟨"staff", some "FRONT_DESK"⟩, AuthCall.clear,
         AuthCall.set "tok2" ⟨"admin", some "ADMIN"⟩]).foldl AuthCall.apply
        AppAuthState.initial) =
      lastIsSet [AuthCall.set "tok" ⟨"staff", some "FRONT_DESK"⟩, AuthCall.clear,
         AuthCall.set "tok2" ⟨"admin", some "ADMIN"⟩] :=
  isAuthenticated_tracks_last_call _ (by decide)

/-- Claim C6: starting from an empty session store, `login` against a backend
rejection carrying a non-empty `detail` message fails with exactly that
message (after the rejection passes through the response interceptor, for any
status code), `login` against a 2xx response without a truthy access
credential fails with the message `'Login failed: No access token received.'`
(which is labeled `login failed`, compared case-insensitively), and in both
failure cases the session store is left empty. -/
theorem login_failure_behavior (parse : String → Option AuthService.JwtPayload)
    (st : Nat) (msg : String) (d : String) (hd : d ≠ "")
    (data : AuthService.TokenResponse) (ha : truthy data.access = false) :
    AuthService.login parse LocalStorage.empty (.httpError st msg (some d)) =
      (LocalStorage.empty, .error d) ∧
    AuthService.login parse LocalStorage.empty (.ok data) =
      (LocalStorage.empty, .error "Login failed: No access token received.") ∧
    ("Login failed: No access token received.".data.take 12).map Char.toLower =
      "login failed".data := by
  refine ⟨?_, ?_, by decide⟩
  · have hdd : (d == "") = false := by simpa using hd
    simp only [AuthService.login, ApiService.interceptResponse, jsOr, hdd]
    split <;> rfl
  · rcases data with ⟨access, refresh⟩
    cases access with
    | none => rfl
    | some a =>
      have ha' : a = "" := by simpa [truthy] using ha
      subst ha'
      rfl

/-- Witness for claim C6 at the spec's concrete inputs. -/
theorem login_failure_behavior_witness :
    AuthService.login (fun _ => none) LocalStorage.empty
        (.httpError 401 "Request failed with status code 401" (some "No active account found")) =
      (LocalStorage.empty, .error "No active account found") ∧
    AuthService.login (fun _ => none) LocalStorage.empty (.ok ⟨none, none⟩) =
      (LocalStorage.empty, .error "Login failed: No access token received.") ∧
    ("Login failed: No access token received.".data.take 12).map Char.toLower =
      "login failed".data :=
  login_failure_behavior (fun _ => none) 401 "Request failed with status code 401"
    "No active account found" (by decide) ⟨none, none⟩ (by decide)

/-- Claim C7: `updateReservation` returns a successful response body exactly
as the backend sent it (in particular its `status` field), and on a backend
validation failure the caller receives the field-name-keyed error mapping
unmodified; the form page's submit handler then stores that exact mapping in
its per-field error state. -/
theorem update_passthrough (s : AppAuthState) (id : Nat) (payload : List (String × String))
    (r : ReservationService.Reservation) (st : Nat) (msg : String)
    (m : ReservationService.FieldErrors) :
    (ReservationService.updateReservation s id payload (.success r)).2 = .ok r ∧
    (ReservationService.updateReservation s id payload (.httpError st msg (some m))).2 =
      .error (.response st msg (some m)) ∧
    ReservationFormPage.handleSubmitError true (.response st msg (some m)) =
      { formErrors := m, error := "Please correct the errors below." } :=
  ⟨rfl, rfl, rfl⟩

/-- Claim C8 is false on the code at a concrete input: an authenticated
session whose stored profile has the empty string as its role — a role that is
not in the allowed set `['ADMIN']` — is not redirected to the dashboard; the
guard's truthiness test on `user.role` skips the check and the view
renders. -/
theorem route_guard_empty_role_cex :
    let s : AppAuthState :=
      ⟨⟨some "tok", some ⟨"staff", some ""⟩, none⟩, some "tok", some ⟨"staff", some ""⟩⟩
    AuthContext.isAuthenticated s = true ∧ ¬ ("" ∈ ["ADMIN"]) ∧
      ProtectedRoute (some ["ADMIN"]) s = .renderOutlet ∧
      ProtectedRoute (some ["ADMIN"]) s ≠ .redirectDashboard := by
  decide

/-- Claim C8 (amended): for every route with a required role set and every
session state whose stored profile carries a non-empty role: an
unauthenticated session is redirected to the login page; an authenticated
session whose role is not in the allowed set is redirected to the default
landing page (`/app/dashboard`), not to login; otherwise the requested view
renders. -/
theorem route_guard_trichotomy (roles : List String) (s : AppAuthState)
    (u : UserProfile) (r : String) (hu : s.memUser = some u) (hr : u.role = some r)
    (hne : r ≠ "") :
    (AuthContext.isAuthenticated s = false →
      ProtectedRoute (some roles) s = .redirectLogin) ∧
    (AuthContext.isAuthenticated s = true → r ∉ roles →
      ProtectedRoute (some roles) s = .redirectDashboard) ∧
    (AuthContext.isAuthenticated s = true → r ∈ roles →
      ProtectedRoute (some roles) s = .renderOutlet) := by
  refine ⟨fun hauth => ?_, fun hauth hmem => ?_, fun hauth hmem => ?_⟩
  · simp [ProtectedRoute, hauth]
  · simp [ProtectedRoute, hauth, hu, hr, hne, hmem]
  · simp [ProtectedRoute, hauth, hu, hr, hmem]

/-- Witness for the amended claim C8 at the spec's concrete input: role
`FRONT_DESK` against `allowedRoles = ['ADMIN']` is sent to the dashboard. -/
theorem route_guard_trichotomy_witness :
    ProtectedRoute (some ["ADMIN"])
      ⟨⟨some "tok", some ⟨"staff", some "FRONT_DESK"⟩, none⟩, some "tok",
        some ⟨"staff", some "FRONT_DESK"⟩⟩ = .redirectDashboard :=
  (route_guard_trichotomy ["ADMIN"] _ ⟨"staff", some "FRONT_DESK"⟩ "FRONT_DESK"
    rfl rfl (by decide)).2.1 (by decide) (by decide)

/-- Claim C9: when `isAuthenticated()` is true but the stored profile is
absent or lacks a role field, the route guard renders every role-restricted
route regardless of its allowed-role set: the role check is skipped rather
than failed. -/
theorem route_guard_skips_missing_role (ar : Option (List String)) (s : AppAuthState)
    (hauth : AuthContext.isAuthenticated s = true)
    (hprof : s.memUser = none ∨ ∃ u, s.memUser = some u ∧ u.role = none) :
    ProtectedRoute ar s = .renderOutlet := by
  rcases hprof with h | ⟨u, hu, hr⟩
  · cases ar <;> simp [ProtectedRoute, h, hauth]
  · cases ar <;> simp [ProtectedRoute, hu, hr, hauth]

/-- Witness for claim C9: a token-present, profile-absent session passes a
guard restricted to `['ADMIN']`. -/
theorem route_guard_skips_missing_role_witness :
    ProtectedRoute (some ["ADMIN"]) ⟨⟨some "tok", none, none⟩, some "tok", none⟩ =
      .renderOutlet :=
  route_guard_skips_missing_role (some ["ADMIN"]) _ (by decide) (Or.inl rfl)

namespace ReservationsListPage

/-- `Math.ceil(n / b)` on naturals, as computed by the page-count formula,
equals the rational ceiling. -/
theorem ceilDiv_eq_natCeil (n b : Nat) (hb : 0 < b) :
    (n + b - 1) / b = ⌈(n : ℚ) / (b : ℚ)⌉₊ := by
  rcases Nat.eq_zero_or_pos n with hn | hn
  · subst hn
    simp [Nat.div_eq_of_lt (Nat.sub_lt hb Nat.one_pos)]
  · have hq1 : 1 ≤ (n + b - 1) / b := (Nat.le_div_iff_mul_le hb).mpr (by omega)
    have h1 : (n + b - 1) / b * b ≤ n + b - 1 := Nat.div_mul_le_self _ _
    have h2 : n + b - 1 < ((n + b - 1) / b + 1) * b :=
      (Nat.div_lt_iff_lt_mul hb).mp (Nat.lt_succ_self _)
    rw [Nat.succ_mul] at h2
    have hbq : (0 : ℚ) < (b : ℚ) := by exact_mod_cast hb
    symm
    rw [Nat.ceil_eq_iff (by omega : (n + b - 1) / b ≠ 0)]
    constructor
    · rw [lt_div_iff₀ hbq]
      have key : ((n + b - 1) / b - 1) * b < n := by
        rw [Nat.sub_one_mul]
        generalize h : (n + b - 1) / b * b = P at h1 h2
        omega
      exact_mod_cast key
    · rw [div_le_iff₀ hbq]
      have key : n ≤ (n + b - 1) / b * b := by
        generalize h : (n + b - 1) / b * b = P at h1 h2
        omega
      exact_mod_cast key

/-- The current page after a step equals the current page after the bare
handler update: neither issuing a fetch nor a fetch completion moves the
page. -/
theorem step_currentPage (cfg : ListConfig) (s : ListPageState) (e : ListEvent) :
    (step cfg s e).currentPage = (handleEvent s e).currentPage := by
  cases e with
  | fetchSuccess count results =>
      cases count with
      | none => rfl
      | some n =>
          simp only [step, handleEvent]
          split_ifs <;> rfl
  | fetchFailure => rfl
  | setStatusFilter v => simp only [step]; split <;> rfl
  | setCheckInFrom v => simp only [step]; split <;> rfl
  | setCheckInTo v => simp only [step]; split <;> rfl
  | setGuestEmail v => simp only [step]; split <;> rfl
  | applyFilters => simp only [step]; split <;> rfl
  | clearFilters => simp only [step]; split <;> rfl
  | nextPage => simp only [step]; split <;> rfl
  | prevPage => simp only [step]; split <;> rfl

/-- Every step keeps the current page at or above 1. -/
theorem step_page_lower_bound (cfg : ListConfig) (s : ListPageState) (e : ListEvent)
    (h : 1 ≤ s.currentPage) : 1 ≤ (step cfg s e).currentPage := by
  rw [step_currentPage]
  cases e with
  | setStatusFilter v => simpa [handleEvent] using h
  | setCheckInFrom v => simpa [handleEvent] using h
  | setCheckInTo v => simpa [handleEvent] using h
  | setGuestEmail v => simpa [handleEvent] using h
  | applyFilters => simp [handleEvent]
  | clearFilters => simp [handleEvent]
  | nextPage =>
      simp only [handleEvent]
      split
      · show 1 ≤ s.currentPage + 1
        omega
      · exact h
  | prevPage =>
      simp only [handleEvent]
      split
      · show 1 ≤ s.currentPage - 1
        omega
      · exact h
  | fetchSuccess count results => simpa [handleEvent] using h
  | fetchFailure => simpa [handleEvent] using h

/-- Claim C4 is false on the code at a concrete input: with the list on page 3
(after an initial fetch reporting 25 results and two next-page clicks),
changing the status filter to `CONFIRMED` leaves the current page at 3 — the
page is not reset to 1 — and the single re-fetch it triggers carries page 3
with the new filter. -/
theorem filter_change_keeps_page_cex :
    let final := ([ListEvent.fetchSuccess (some 25) 10, ListEvent.nextPage, ListEvent.nextPage,
      ListEvent.setStatusFilter "CONFIRMED"]).foldl (step ⟨10⟩) mount
    final.currentPage = 3 ∧ final.currentPage ≠ 1 ∧
      final.fetchLog.head? = some ⟨3, some "CONFIRMED", none, none, none⟩ := by
  decide

/-- Claim C4 (amended): changing any single field of the query filter set to a
new value triggers exactly one re-fetch carrying the new combined filter set
together with the current page, which is left unchanged rather than reset; the
page is reset to 1 (with a re-fetch when anything changed) only by the
apply-filters and clear-filters handlers. -/
theorem filter_change_single_refetch (cfg : ListConfig) (s : ListPageState) (v : String) :
    (v ≠ s.statusFilter →
      step cfg s (.setStatusFilter v) = fetchStart { s with statusFilter := v }) ∧
    (v ≠ s.checkInDateFromFilter →
      step cfg s (.setCheckInFrom v) = fetchStart { s with checkInDateFromFilter := v }) ∧
    (v ≠ s.checkInDateToFilter →
      step cfg s (.setCheckInTo v) = fetchStart { s with checkInDateToFilter := v }) ∧
    (v ≠ s.guestEmailFilter →
      step cfg s (.setGuestEmail v) = fetchStart { s with guestEmailFilter := v }) ∧
    (step cfg s (.setStatusFilter v)).currentPage = s.currentPage ∧
    (step cfg s .applyFilters).currentPage = 1 ∧
    (step cfg s .clearFilters).currentPage = 1 := by
  refine ⟨fun hv => ?_, fun hv => ?_, fun hv => ?_, fun hv => ?_, ?_, ?_, ?_⟩
  · simp only [step]
    rw [if_neg (fun hdeps => hv hdeps.2.1)]
    rfl
  · simp only [step]
    rw [if_neg (fun hdeps => hv hdeps.2.2.1)]
    rfl
  · simp only [step]
    rw [if_neg (fun hdeps => hv hdeps.2.2.2.1)]
    rfl
  · simp only [step]
    rw [if_neg (fun hdeps => hv hdeps.2.2.2.2)]
    rfl
  · rw [step_currentPage]; rfl
  · rw [step_currentPage]; rfl
  · rw [step_currentPage]; rfl

/-- Witness for the amended claim C4 at a concrete state and filter value. -/
theorem filter_change_single_refetch_witness :
    step ⟨10⟩ mount (.setStatusFilter "CONFIRMED") =
      fetchStart { mount with statusFilter := "CONFIRMED" } ∧
    step ⟨10⟩ mount (.setGuestEmail "doe@x.io") =
      fetchStart { mount with guestEmailFilter := "doe@x.io" } ∧
    (step ⟨10⟩ mount .applyFilters).currentPage = 1 := by
  have h := filter_change_single_refetch ⟨10⟩ mount "CONFIRMED"
  have h2 := filter_change_single_refetch ⟨10⟩ mount "doe@x.io"
  exact ⟨h.1 (by decide), h2.2.2.2.1 (by decide), h.2.2.2.2.2.1⟩

/-- Claim C5: on every list fetch whose response envelope is consistent
(`count` present, and a non-empty `results` whenever `count` is positive), the
computed total pages is recomputed from scratch — independently of the
previous state — as the ceiling of `count` divided by the configured page
size. -/
theorem totalPages_ceil_of_count (cfg : ListConfig) (s : ListPageState) (n results : Nat)
    (hps : 0 < cfg.pageSize) (hc : 0 < n → 0 < results) :
    (step cfg s (.fetchSuccess (some n) results)).totalPages =
      ⌈(n : ℚ) / (cfg.pageSize : ℚ)⌉₊ := by
  rcases Nat.eq_zero_or_pos n with hn | hn
  · subst hn
    simp [step]
  · have hr := hc hn
    have hn0 : n ≠ 0 := by omega
    simp only [step]
    rw [if_pos ⟨hn0, hr⟩]
    exact ceilDiv_eq_natCeil n cfg.pageSize hps

/-- Witness for claim C5 at the spec's concrete input: a fetch returning
`count = 25` with 10 results under page size 10 yields 3 total pages. -/
theorem totalPages_ceil_of_count_witness :
    (step ⟨10⟩ mount (.fetchSuccess (some 25) 10)).totalPages = 3 := by
  have h := totalPages_ceil_of_count ⟨10⟩ mount 25 10 (by decide) (fun _ => by decide)
  rw [h, ← ceilDiv_eq_natCeil 25 10 (by decide)]

/-- Claim C10: starting from the mounted list page, every sequence of
pagination, filter and fetch-completion events keeps the current page at 1 or
above; the next-page handler increments exactly when the current page is below
the total page count, the previous-page handler decrements exactly when the
current page is above 1, and the apply-filters and clear-filters handlers set
the page to 1. -/
theorem current_page_at_least_one (cfg : ListConfig) :
    (∀ es : List ListEvent, 1 ≤ (es.foldl (step cfg) mount).currentPage) ∧
    (∀ s, (step cfg s .nextPage).currentPage =
      if s.currentPage < s.totalPages then s.currentPage + 1 else s.currentPage) ∧
    (∀ s, (step cfg s .prevPage).currentPage =
      if 1 < s.currentPage then s.currentPage - 1 else s.currentPage) ∧
    (∀ s, (step cfg s .applyFilters).currentPage = 1) ∧
    (∀ s, (step cfg s .clearFilters).currentPage = 1) := by
  refine ⟨?_, ?_, ?_, ?_, ?_⟩
  · intro es
    have key : ∀ (l : List ListEvent) (s : ListPageState), 1 ≤ s.currentPage →
        1 ≤ (l.foldl (step cfg) s).currentPage := by
      intro l
      induction l with
      | nil => exact fun s h => h
      | cons e rest ih => exact fun s h => ih _ (step_page_lower_bound cfg s e h)
    exact key es mount (by decide)
  · intro s
    rw [step_currentPage]
    simp only [handleEvent]
    split <;> rfl
  · intro s
    rw [step_currentPage]
    simp only [handleEvent]
    split <;> rfl
  · intro s
    rw [step_currentPage]
    rfl
  · intro s
    rw [step_currentPage]
    rfl

end ReservationsListPage

end HotelApp
